import Mathlib

/-!
Verification of the configuration persistence module (`src/config.c`) of
fsearch.  The module stores an `FsearchConfig` record in a GLib key file
(`fsearch.conf`).  We embed the key-file state after parsing as a list of
(group, key, value) entries and model the GLib key-file accessors
(`g_key_file_get_boolean` / `get_integer` / `get_string` / the `set_*`
family) from GLib's documented behaviour: booleans are the literals
`true`/`1`/`false`/`0`, integers are decimal strings restricted to the
range of a 32-bit signed `gint`, strings are taken verbatim.  The
top-level success or failure of `g_key_file_load_from_file` is modelled
by an `Option KeyFile` input to `load_config`, and the success of
`g_key_file_save_to_file` by a boolean `writeOk` input to `save_config`.
-/

namespace Fsearch

/-- One entry of a parsed GLib key file: a key/value pair inside a group. -/
structure Entry where
  group : String
  key : String
  value : String
deriving DecidableEq, Repr

/-- A parsed GLib key file, in insertion order. -/
abbrev KeyFile := List Entry

/-- The GLib key-file error codes that `config.c` distinguishes in
`config_load_handle_error`. -/
inductive KeyFileError where
  | groupNotFound
  | keyNotFound
  | invalidValue
deriving DecidableEq, Repr

/-- Does an entry carry the given group and key? -/
def keyMatches (g k : String) (e : Entry) : Bool :=
  e.group == g && e.key == k

/-- The value stored for a group/key pair, if any. -/
def lookupVal (kf : KeyFile) (g k : String) : Option String :=
  (kf.find? (keyMatches g k)).map Entry.value

/-- Does the key file contain any entry of the given group? -/
def hasGroup (kf : KeyFile) (g : String) : Bool :=
  kf.any (fun e => e.group == g)

/-- `g_key_file_get_value`: the raw value, or `G_KEY_FILE_ERROR_GROUP_NOT_FOUND` /
`G_KEY_FILE_ERROR_KEY_NOT_FOUND`. -/
def keyFileGetValue (kf : KeyFile) (g k : String) : Except KeyFileError String :=
  match lookupVal kf g k with
  | some v => .ok v
  | none => if hasGroup kf g then .error .keyNotFound else .error .groupNotFound

/-- Decimal digit value of a character, as consumed by `g_ascii_strtoll`. -/
def digitVal? (c : Char) : Option Nat :=
  if c.isDigit then some (c.toNat - 48) else none

/-- Accumulating decimal evaluation of a digit string (most significant first). -/
def parseDecCore : List Char → Nat → Option Nat
  | [], acc => some acc
  | c :: cs, acc =>
    match digitVal? c with
    | some d => parseDecCore cs (10 * acc + d)
    | none => none

/-- A non-empty all-digit string evaluated as a decimal number. -/
def parseDec? (l : List Char) : Option Nat :=
  match l with
  | [] => none
  | _ :: _ => parseDecCore l 0

/-- `g_key_file_parse_value_as_integer`: decimal (optionally negated) text,
fully consumed, whose value fits in a 32-bit signed `gint`. -/
def parseGInt? (s : String) : Option Int :=
  match s.data with
  | [] => none
  | c :: cs =>
    if c = '-' then
      match parseDec? cs with
      | some n => if (n : Int) ≤ 2147483648 then some (-(n : Int)) else none
      | none => none
    else
      match parseDec? (c :: cs) with
      | some n => if (n : Int) ≤ 2147483647 then some ((n : Int)) else none
      | none => none

/-- `g_key_file_parse_value_as_boolean`: the literals accepted by GLib. -/
def parseGBool? (s : String) : Option Bool :=
  if s = "true" ∨ s = "1" then some true
  else if s = "false" ∨ s = "0" then some false
  else none

/-- `g_key_file_get_boolean`. -/
def keyFileGetBoolean (kf : KeyFile) (g k : String) : Except KeyFileError Bool :=
  match keyFileGetValue kf g k with
  | .ok s =>
    match parseGBool? s with
    | some b => .ok b
    | none => .error .invalidValue
  | .error e => .error e

/-- `g_key_file_get_integer`: the parsed value is a signed 32-bit `gint`. -/
def keyFileGetInteger (kf : KeyFile) (g k : String) : Except KeyFileError Int :=
  match keyFileGetValue kf g k with
  | .ok s =>
    match parseGInt? s with
    | some v => .ok v
    | none => .error .invalidValue
  | .error e => .error e

/-- `g_key_file_get_string`. -/
def keyFileGetString (kf : KeyFile) (g k : String) : Except KeyFileError String :=
  keyFileGetValue kf g k

/-- The `g_key_file_set_*` family: replace the value of an existing
group/key pair, or append a fresh entry at the end. -/
def setValue (kf : KeyFile) (g k v : String) : KeyFile :=
  if kf.any (keyMatches g k) then
    kf.map (fun e => if keyMatches g k e then { e with value := v } else e)
  else
    kf ++ [{ group := g, key := k, value := v }]

/-- The C conversion of a `uint32_t` value to the signed 32-bit `gint`
argument of `g_key_file_set_integer`. -/
def toGInt (m : Nat) : Int :=
  if m % 4294967296 < 2147483648 then ((m % 4294967296 : Nat) : Int)
  else ((m % 4294967296 : Nat) : Int) - 4294967296

/-- The C conversion of a signed 32-bit `gint` to a `uint32_t`, as in the
assignment inside `config_load_integer`. -/
def uint32OfGInt (v : Int) : Nat :=
  (v % 4294967296).toNat

/-- The text `g_key_file_set_boolean` stores. -/
def boolToString (b : Bool) : String :=
  if b then "true" else "false"

/-- The text `g_key_file_set_integer` stores for a `gint`. -/
def gintToString (v : Int) : String :=
  if v < 0 then "-" ++ Nat.repr (-v).toNat else Nat.repr v.toNat

/-- The configuration record of `config.h`, with exactly the fields
`config.c` reads and writes.  `num_results` is a `uint32_t`, embedded as a
`Nat` together with the explicit mod-2^32 conversions above. -/
structure FsearchConfig where
  enable_list_tooltips : Bool
  enable_dark_theme : Bool
  show_menubar : Bool
  show_statusbar : Bool
  show_filter : Bool
  show_search_button : Bool
  match_case : Bool
  enable_regex : Bool
  search_in_path : Bool
  limit_results : Bool
  num_results : Nat
  locations : List String
deriving DecidableEq, Repr

/-- `config_load_boolean` from `config.c`: the parsed value, or the given
default on any key-file error. -/
def config_load_boolean (key_file : KeyFile) (group_name key : String)
    (default_value : Bool) : Bool :=
  match keyFileGetBoolean key_file group_name key with
  | .ok b => b
  | .error _ => default_value

/-- `config_load_integer` from `config.c`: the parsed `gint` stored into a
`uint32_t`, or the given default on any key-file error. -/
def config_load_integer (key_file : KeyFile) (group_name key : String)
    (default_value : Nat) : Nat :=
  match keyFileGetInteger key_file group_name key with
  | .ok v => uint32OfGInt v
  | .error _ => default_value

/-- `config_load_string` from `config.c` (the C default is `NULL`,
embedded as `none`). -/
def config_load_string (key_file : KeyFile) (group_name key : String)
    (default_value : Option String) : Option String :=
  match keyFileGetString key_file group_name key with
  | .ok s => some s
  | .error _ => default_value

/-- The key `location_<pos>` built by `snprintf` in `load_config` and
`save_config`. -/
def locKey (pos : Nat) : String :=
  "location_" ++ Nat.repr pos

/-- The location-reading loop of `load_config`, starting at index `pos`:
read `location_pos`, `location_pos+1`, ... and stop at the first missing
key.  The C loop is bounded only by that stop condition; the `fuel`
argument makes the recursion structural and is always instantiated large
enough (a key file with `n` entries holds at most `n` distinct location
keys, so `length + 1` steps reach a missing key). -/
def loadLocationsFrom (key_file : KeyFile) (pos fuel : Nat) : List String :=
  match fuel with
  | 0 => []
  | fuel + 1 =>
    match config_load_string key_file "Database" (locKey pos) none with
    | some value => value :: loadLocationsFrom key_file (pos + 1) fuel
    | none => []

/-- The location list read by `load_config`, starting at `location_1`. -/
def loadLocations (key_file : KeyFile) : List String :=
  loadLocationsFrom key_file 1 (key_file.length + 1)

/-- `load_config` from `config.c`.  The `file` argument is the outcome of
`g_key_file_load_from_file`: `none` when the file cannot be opened or its
top-level structure cannot be parsed.  The function receives the record
by pointer and returns its new state together with the boolean result;
the read locations are appended (`g_list_append`) to the record's current
location list. -/
def load_config (file : Option KeyFile) (config : FsearchConfig) :
    Bool × FsearchConfig :=
  match file with
  | none => (false, config)
  | some key_file =>
    (true,
      { enable_list_tooltips :=
          config_load_boolean key_file "Interface" "enable_list_tooltips" true
        enable_dark_theme :=
          config_load_boolean key_file "Interface" "enable_dark_theme" false
        show_menubar :=
          config_load_boolean key_file "Interface" "show_menubar" true
        show_statusbar :=
          config_load_boolean key_file "Interface" "show_statusbar" true
        show_filter :=
          config_load_boolean key_file "Interface" "show_filter" true
        show_search_button :=
          config_load_boolean key_file "Interface" "show_search_button" true
        match_case :=
          config_load_boolean key_file "Search" "match_case" false
        enable_regex :=
          config_load_boolean key_file "Search" "enable_regex" false
        search_in_path :=
          config_load_boolean key_file "Search" "search_in_path" false
        limit_results :=
          config_load_boolean key_file "Search" "limit_results" false
        num_results :=
          config_load_integer key_file "Search" "num_results" 10000
        locations := config.locations ++ loadLocations key_file })

/-- `load_default_config` from `config.c`: overwrite every field of the
record with its literal default and return `true`. -/
def load_default_config (config : FsearchConfig) : Bool × FsearchConfig :=
  (true,
    { config with
      match_case := false
      enable_regex := false
      search_in_path := false
      limit_results := true
      num_results := 10000
      enable_dark_theme := false
      enable_list_tooltips := true
      show_menubar := true
      show_statusbar := true
      show_filter := true
      show_search_button := true
      locations := [] })

/-- The location-writing loop of `save_config`: store each list element
under `location_pos`, `location_pos+1`, ... -/
def save_locations (kf : KeyFile) (locs : List String) (pos : Nat) : KeyFile :=
  match locs with
  | [] => kf
  | v :: rest => save_locations (setValue kf "Database" (locKey pos) v) rest (pos + 1)

/-- The key file built by `save_config` before it is written to disk: the
eleven scalar `g_key_file_set_*` calls in source order, then the location
loop (guarded by `if (config->locations)`, which coincides with running
the loop on the empty list). -/
def save_key_file (config : FsearchConfig) : KeyFile :=
  save_locations
    (setValue
      (setValue
        (setValue
          (setValue
            (setValue
              (setValue
                (setValue
                  (setValue
                    (setValue
                      (setValue
                        (setValue [] "Interface" "enable_list_tooltips"
                          (boolToString config.enable_list_tooltips))
                        "Interface" "enable_dark_theme"
                        (boolToString config.enable_dark_theme))
                      "Interface" "show_menubar"
                      (boolToString config.show_menubar))
                    "Interface" "show_statusbar"
                    (boolToString config.show_statusbar))
                  "Interface" "show_filter"
                  (boolToString config.show_filter))
                "Interface" "show_search_button"
                (boolToString config.show_search_button))
              "Search" "search_in_path"
              (boolToString config.search_in_path))
            "Search" "enable_regex"
            (boolToString config.enable_regex))
          "Search" "match_case"
          (boolToString config.match_case))
        "Search" "limit_results"
        (boolToString config.limit_results))
      "Search" "num_results"
      (gintToString (toGInt config.num_results)))
    config.locations 1

/-- `save_config` from `config.c`.  `writeOk` is the outcome of
`g_key_file_save_to_file`; the function never writes to the record it is
given, so the record component of the result is the input record. -/
def save_config (config : FsearchConfig) (writeOk : Bool) :
    Bool × FsearchConfig × Option KeyFile :=
  let key_file := save_key_file config
  if writeOk then (true, config, some key_file) else (false, config, none)

/-- Follows the spec's words (§4.1 Save): the `locations` of a record are
written as the numbered key sequence `location_pos .. location_pos+N-1`
of the `Database` group, in the record's current order, numbered
contiguously. -/
def specLocationEntries : Nat → List String → List Entry
  | _, [] => []
  | pos, v :: rest =>
    { group := "Database", key := locKey pos, value := v } ::
      specLocationEntries (pos + 1) rest

/-- The eleven scalar entries written by `save_config`, in source order. -/
def scalarEntries (config : FsearchConfig) : KeyFile :=
  [ { group := "Interface", key := "enable_list_tooltips",
      value := boolToString config.enable_list_tooltips },
    { group := "Interface", key := "enable_dark_theme",
      value := boolToString config.enable_dark_theme },
    { group := "Interface", key := "show_menubar",
      value := boolToString config.show_menubar },
    { group := "Interface", key := "show_statusbar",
      value := boolToString config.show_statusbar },
    { group := "Interface", key := "show_filter",
      value := boolToString config.show_filter },
    { group := "Interface", key := "show_search_button",
      value := boolToString config.show_search_button },
    { group := "Search", key := "search_in_path",
      value := boolToString config.search_in_path },
    { group := "Search", key := "enable_regex",
      value := boolToString config.enable_regex },
    { group := "Search", key := "match_case",
      value := boolToString config.match_case },
    { group := "Search", key := "limit_results",
      value := boolToString config.limit_results },
    { group := "Search", key := "num_results",
      value := gintToString (toGInt config.num_results) } ]

end Fsearch

namespace Fsearch

/-! ### Concrete records and key files used in examples and witnesses -/

/-- A concrete configuration record with an empty location list, standing
for a freshly allocated record handed to `load_config`. -/
def cEx : FsearchConfig :=
  { enable_list_tooltips := true, enable_dark_theme := false, show_menubar := true,
    show_statusbar := true, show_filter := true, show_search_button := true,
    match_case := false, enable_regex := false, search_in_path := false,
    limit_results := false, num_results := 10000, locations := [] }

/-- The key file of the spec's location-gap example: `location_1 = /a` and
`location_3 = /c`, with no `location_2`. -/
def kfGap : KeyFile :=
  [ { group := "Database", key := "location_1", value := "/a" },
    { group := "Database", key := "location_3", value := "/c" } ]

/-- A key file containing only `[Search] num_results = 500`. -/
def kfNum500 : KeyFile :=
  [ { group := "Search", key := "num_results", value := "500" } ]

/-- A key file containing only `[Search] match_case = notabool`. -/
def kfNotABool : KeyFile :=
  [ { group := "Search", key := "match_case", value := "notabool" } ]

/-- A key file containing only `[Search] num_results = -1`. -/
def kfNumNeg : KeyFile :=
  [ { group := "Search", key := "num_results", value := "-1" } ]

/-! ### Helper equations -/

/-- Unfolding equation for a successful `load_config`. -/
theorem load_config_some_eq (kf : KeyFile) (config : FsearchConfig) :
    load_config (some kf) config =
      (true,
        { enable_list_tooltips :=
            config_load_boolean kf "Interface" "enable_list_tooltips" true
          enable_dark_theme :=
            config_load_boolean kf "Interface" "enable_dark_theme" false
          show_menubar := config_load_boolean kf "Interface" "show_menubar" true
          show_statusbar := config_load_boolean kf "Interface" "show_statusbar" true
          show_filter := config_load_boolean kf "Interface" "show_filter" true
          show_search_button :=
            config_load_boolean kf "Interface" "show_search_button" true
          match_case := config_load_boolean kf "Search" "match_case" false
          enable_regex := config_load_boolean kf "Search" "enable_regex" false
          search_in_path := config_load_boolean kf "Search" "search_in_path" false
          limit_results := config_load_boolean kf "Search" "limit_results" false
          num_results := config_load_integer kf "Search" "num_results" 10000
          locations := config.locations ++ loadLocations kf }) :=
  rfl

/-! ### Claims -/

/-- C3: `load_default_config` always succeeds and returns a record whose
every field equals its documented default (`enable_list_tooltips = true`,
`enable_dark_theme = false`, `show_menubar = true`, `show_statusbar = true`,
`show_filter = true`, `show_search_button = true`, `match_case = false`,
`enable_regex = false`, `search_in_path = false`, `limit_results = true`,
`num_results = 10000`) and whose location list is empty. -/
theorem load_default_config_defaults (config : FsearchConfig) :
    load_default_config config =
      (true,
        { enable_list_tooltips := true, enable_dark_theme := false,
          show_menubar := true, show_statusbar := true, show_filter := true,
          show_search_button := true, match_case := false, enable_regex := false,
          search_in_path := false, limit_results := true, num_results := 10000,
          locations := [] }) := by
  cases config
  rfl

/-- C6: whenever the configuration file cannot be opened or its top-level
structure cannot be parsed (`g_key_file_load_from_file` fails, e.g. on a
nonexistent file), `load_config` returns failure. -/
theorem load_config_no_file_fails (config : FsearchConfig) :
    (load_config none config).1 = false :=
  rfl

/-- C9: when the top-level load of the file fails, `load_config` returns
`false` and writes to no field of the record it was given: the record
comes back exactly as supplied. -/
theorem load_config_no_file_frame (config : FsearchConfig) :
    load_config none config = (false, config) :=
  rfl

/-- C2: `load_default_config` sets `limit_results` to `true`, while
`load_config`, when the `limit_results` key is missing from the file,
falls back to `false`: both literal defaults are as stated. -/
theorem limit_results_default_divergence (kf : KeyFile) (c0 c1 : FsearchConfig)
    (h : lookupVal kf "Search" "limit_results" = none) :
    (load_default_config c1).2.limit_results = true ∧
      (load_config (some kf) c0).2.limit_results = false := by
  refine ⟨rfl, ?_⟩
  simp only [load_config, config_load_boolean, keyFileGetBoolean, keyFileGetValue, h]
  cases hasGroup kf "Search" <;> simp

/-- C2 witness: the divergence at the concrete empty key file. -/
theorem limit_results_default_divergence_witness :
    (load_default_config cEx).2.limit_results = true ∧
      (load_config (some []) cEx).2.limit_results = false :=
  limit_results_default_divergence [] cEx cEx rfl

/-- C4: the location loop of `load_config` reads `location_1`,
`location_2`, ... of the `Database` group in increasing order starting at
1 and stops at the first missing index (first conjunct), so entries after
a gap are dropped: on a file with `location_1 = /a` and `location_3 = /c`
but no `location_2`, the load succeeds with `locations = ["/a"]` (second
and third conjuncts). -/
theorem load_locations_gap (c0 : FsearchConfig) (h : c0.locations = []) :
    (∀ (kf : KeyFile) (pos fuel : Nat),
        config_load_string kf "Database" (locKey pos) none = none →
          loadLocationsFrom kf pos fuel = []) ∧
      (load_config (some kfGap) c0).1 = true ∧
      (load_config (some kfGap) c0).2.locations = ["/a"] := by
  refine ⟨fun kf pos fuel hstop => ?_, ?_, ?_⟩
  · cases fuel <;> simp [loadLocationsFrom, hstop]
  · rfl
  · rw [load_config_some_eq, h]
    decide

/-- C4 witness: the gap example at the concrete record `cEx`. -/
theorem load_locations_gap_witness :
    (load_config (some kfGap) cEx).1 = true ∧
      (load_config (some kfGap) cEx).2.locations = ["/a"] :=
  (load_locations_gap cEx rfl).2

/-- C5: each scalar field of `load_config` falls back independently to its
default while the load still succeeds: a file holding only
`[Search] num_results = 500` loads successfully with `num_results = 500`
and every other field at its per-field load default, and a file holding
only `[Search] match_case = notabool` loads successfully with
`match_case` at its default `false`. -/
theorem load_config_partial_file (c0 : FsearchConfig) (h : c0.locations = []) :
    load_config (some kfNum500) c0 =
      (true,
        { enable_list_tooltips := true, enable_dark_theme := false,
          show_menubar := true, show_statusbar := true, show_filter := true,
          show_search_button := true, match_case := false, enable_regex := false,
          search_in_path := false, limit_results := false, num_results := 500,
          locations := [] }) ∧
      (load_config (some kfNotABool) c0).1 = true ∧
      (load_config (some kfNotABool) c0).2.match_case = false := by
  rw [load_config_some_eq, load_config_some_eq, h]
  refine ⟨?_, rfl, ?_⟩ <;> decide

/-- C5 witness: the partial-file recovery at the concrete record `cEx`. -/
theorem load_config_partial_file_witness :
    load_config (some kfNum500) cEx =
      (true,
        { enable_list_tooltips := true, enable_dark_theme := false,
          show_menubar := true, show_statusbar := true, show_filter := true,
          show_search_button := true, match_case := false, enable_regex := false,
          search_in_path := false, limit_results := false, num_results := 500,
          locations := [] }) ∧
      (load_config (some kfNotABool) cEx).1 = true ∧
      (load_config (some kfNotABool) cEx).2.match_case = false :=
  load_config_partial_file cEx rfl

/-- C8: if `save_config` fails (returns `false`), the in-memory record it
was given is returned unchanged in every field, locations included. -/
theorem save_config_failure_frame (config : FsearchConfig) (writeOk : Bool)
    (h : (save_config config writeOk).1 = false) :
    (save_config config writeOk).2.1 = config := by
  cases writeOk
  · rfl
  · exact absurd h (by simp [save_config])

/-- C8 witness: a failed save at the concrete record `cEx`. -/
theorem save_config_failure_frame_witness :
    (save_config cEx false).2.1 = cEx :=
  save_config_failure_frame cEx false rfl


/-- Any value produced by the `gint` parser fits in a signed 32-bit
integer. -/
theorem parseGInt_range (s : String) (v : Int) (h : parseGInt? s = some v) :
    -2147483648 ≤ v ∧ v ≤ 2147483647 := by
  unfold parseGInt? at h
  split at h
  · simp at h
  · split at h
    · split at h
      · split at h
        · injection h with h'
          omega
        · simp at h
      · simp at h
    · split at h
      · split at h
        · injection h with h'
          omega
        · simp at h
      · simp at h

/-- Projection equation: the `num_results` field after a successful load. -/
theorem load_config_num_results_eq (kf : KeyFile) (config : FsearchConfig) :
    (load_config (some kf) config).2.num_results =
      config_load_integer kf "Search" "num_results" 10000 :=
  rfl

/-- C10: `num_results` is stored as a 32-bit unsigned integer but parsed
from the file as a signed `gint`; when the file's `num_results` value
parses to a negative `v`, `load_config` stores `v` modulo 2^32 (which is
at least 2^31, so the documented default 10000 is not used). -/
theorem num_results_negative_wraps (kf : KeyFile) (c0 : FsearchConfig)
    (s : String) (v : Int)
    (h1 : keyFileGetValue kf "Search" "num_results" = .ok s)
    (h2 : parseGInt? s = some v) (h3 : v < 0) :
    (load_config (some kf) c0).2.num_results = (v % 4294967296).toNat ∧
      2147483648 ≤ (load_config (some kf) c0).2.num_results := by
  have hb := parseGInt_range s v h2
  simp only [load_config_num_results_eq, config_load_integer, keyFileGetInteger,
    h1, h2, uint32OfGInt]
  constructor
  · trivial
  · omega

/-- C10 witness: a file with `num_results = -1` loads as 4294967295. -/
theorem num_results_negative_wraps_witness :
    (load_config (some kfNumNeg) cEx).2.num_results = 4294967295 := by
  have h :=
    (num_results_negative_wraps kfNumNeg cEx "-1" (-1) (by rfl) (by decide)
      (by decide)).1
  exact h.trans (by decide)

/-! ### Decimal digit strings: `Nat.repr` parses back to the number -/

/-- Each digit character produced by `Nat.digitChar` parses back to its
value. -/
theorem digitVal_digitChar : ∀ m : Nat, m < 10 → digitVal? (Nat.digitChar m) = some m := by
  decide

/-- Evaluating the digit string produced by `Nat.toDigitsCore` continues
the evaluation of the surrounding string: the accumulator is scaled by the
number of digits and the value is added. -/
theorem parseDecCore_toDigitsCore :
    ∀ fuel n : Nat, n < fuel → ∀ (ds : List Char) (acc : Nat),
      ∃ k, parseDecCore (Nat.toDigitsCore 10 fuel n ds) acc =
        parseDecCore ds (acc * 10 ^ k + n) := by
  intro fuel
  induction fuel with
  | zero => intro n h; omega
  | succ fuel ih =>
    intro n h ds acc
    rw [Nat.toDigitsCore]
    by_cases h0 : n / 10 = 0
    · refine ⟨1, ?_⟩
      rw [if_pos h0]
      simp only [parseDecCore, digitVal_digitChar (n % 10) (by omega)]
      exact congrArg (parseDecCore ds) (by omega)
    · obtain ⟨k, hk⟩ := ih (n / 10) (by omega) (Nat.digitChar (n % 10) :: ds) acc
      refine ⟨k + 1, ?_⟩
      rw [if_neg h0, hk]
      simp only [parseDecCore, digitVal_digitChar (n % 10) (by omega)]
      refine congrArg (parseDecCore ds) ?_
      conv_rhs => rw [← Nat.div_add_mod n 10]
      ring

/-- `Nat.toDigitsCore` never discards its accumulator list. -/
theorem toDigitsCore_ne_nil_of_ne_nil :
    ∀ (fuel n : Nat) (ds : List Char), ds ≠ [] → Nat.toDigitsCore 10 fuel n ds ≠ [] := by
  intro fuel
  induction fuel with
  | zero => intro n ds h; exact h
  | succ fuel ih =>
    intro n ds h
    rw [Nat.toDigitsCore]
    by_cases h0 : n / 10 = 0
    · rw [if_pos h0]
      exact List.cons_ne_nil _ _
    · rw [if_neg h0]
      exact ih _ _ (List.cons_ne_nil _ _)

/-- The digit string of a number is never empty. -/
theorem toDigits_ne_nil (n : Nat) : Nat.toDigits 10 n ≠ [] := by
  show Nat.toDigitsCore 10 (n + 1) n [] ≠ []
  rw [Nat.toDigitsCore]
  by_cases h0 : n / 10 = 0
  · rw [if_pos h0]
    exact List.cons_ne_nil _ _
  · rw [if_neg h0]
    exact toDigitsCore_ne_nil_of_ne_nil _ _ _ (List.cons_ne_nil _ _)

/-- The decimal parser is a left inverse of `Nat.toDigits 10`. -/
theorem parseDec_toDigits (n : Nat) : parseDec? (Nat.toDigits 10 n) = some n := by
  obtain ⟨c, cs, hcc⟩ : ∃ c cs, Nat.toDigits 10 n = c :: cs := by
    cases h : Nat.toDigits 10 n with
    | nil => exact absurd h (toDigits_ne_nil n)
    | cons c cs => exact ⟨c, cs, rfl⟩
  obtain ⟨k, hk⟩ := parseDecCore_toDigitsCore (n + 1) n (by omega) [] 0
  have h1 : parseDec? (Nat.toDigits 10 n) = parseDecCore (Nat.toDigits 10 n) 0 := by
    rw [hcc]
    rfl
  have h2 : parseDecCore (Nat.toDigits 10 n) 0 = parseDecCore [] (0 * 10 ^ k + n) := hk
  rw [h1, h2]
  simp [parseDecCore]

/-- Decimal printing of naturals is injective. -/
theorem nat_repr_inj {n m : Nat} (h : Nat.repr n = Nat.repr m) : n = m := by
  have hd : Nat.toDigits 10 n = Nat.toDigits 10 m := congrArg String.data h
  have h1 := parseDec_toDigits n
  rw [hd, parseDec_toDigits m] at h1
  exact ((Option.some.injEq _ _).mp h1).symm

/-- Distinct indices give distinct `location_<pos>` keys. -/
theorem locKey_inj {i j : Nat} (h : locKey i = locKey j) : i = j := by
  unfold locKey at h
  have hd := congrArg String.data h
  simp only [String.data_append] at hd
  have h2 := (List.append_right_inj _).mp hd
  exact nat_repr_inj (String.ext h2)

/-- A digit string never starts with a minus sign. -/
theorem toDigits_head_ne_minus (n : Nat) (c : Char) (cs : List Char)
    (h : Nat.toDigits 10 n = c :: cs) : ¬c = '-' := by
  intro hc
  have h1 := parseDec_toDigits n
  rw [h, hc] at h1
  have h2 : digitVal? '-' = none := by decide
  simp [parseDec?, parseDecCore, h2] at h1

/-- `parseGInt?` on a string whose text is a minus sign followed by digits. -/
theorem parseGInt_neg_data (s : String) (l : List Char) (n : Nat)
    (hd : s.data = '-' :: l) (hp : parseDec? l = some n)
    (hr : (n : Int) ≤ 2147483648) : parseGInt? s = some (-(n : Int)) := by
  unfold parseGInt?
  rw [hd]
  simp only [hp, if_pos rfl]
  simp [hr]

/-- `parseGInt?` on a string whose text is bare digits. -/
theorem parseGInt_pos_data (s : String) (c : Char) (cs : List Char) (n : Nat)
    (hd : s.data = c :: cs) (hc : ¬c = '-') (hp : parseDec? (c :: cs) = some n)
    (hr : (n : Int) ≤ 2147483647) : parseGInt? s = some (n : Int) := by
  unfold parseGInt?
  rw [hd]
  simp only [hp, if_neg hc]
  simp [hr]

/-- The decimal text written by `g_key_file_set_integer` parses back to
the same `gint`. -/
theorem parseGInt_gintToString (v : Int) (h1 : -2147483648 ≤ v)
    (h2 : v ≤ 2147483647) : parseGInt? (gintToString v) = some v := by
  rcases lt_or_le v 0 with hv | hv
  · have hs : gintToString v = "-" ++ Nat.repr (-v).toNat := if_pos hv
    have hd : (gintToString v).data = '-' :: Nat.toDigits 10 (-v).toNat := by
      rw [hs]
      rfl
    have h3 := parseGInt_neg_data (gintToString v) (Nat.toDigits 10 (-v).toNat)
      (-v).toNat hd (parseDec_toDigits _) (by omega)
    rw [h3]
    congr 1
    omega
  · have hs : gintToString v = Nat.repr v.toNat := if_neg (by omega)
    obtain ⟨c, cs, hcc⟩ : ∃ c cs, Nat.toDigits 10 v.toNat = c :: cs := by
      cases h : Nat.toDigits 10 v.toNat with
      | nil => exact absurd h (toDigits_ne_nil _)
      | cons c cs => exact ⟨c, cs, rfl⟩
    have hd : (gintToString v).data = c :: cs := by
      rw [hs]
      exact hcc
    have h3 := parseGInt_pos_data (gintToString v) c cs v.toNat hd
      (toDigits_head_ne_minus _ _ _ hcc) (by rw [← hcc]; exact parseDec_toDigits _)
      (by omega)
    rw [h3]
    congr 1
    omega

/-- The uint32-to-gint conversion lands in the `gint` range. -/
theorem toGInt_range (m : Nat) : -2147483648 ≤ toGInt m ∧ toGInt m ≤ 2147483647 := by
  unfold toGInt
  split <;> constructor <;> omega

/-- Converting a `uint32_t` to `gint` and back is the identity. -/
theorem uint32OfGInt_toGInt (m : Nat) (h : m < 4294967296) :
    uint32OfGInt (toGInt m) = m := by
  unfold uint32OfGInt toGInt
  split <;> omega

/-- The boolean text written by `g_key_file_set_boolean` parses back to
the same boolean. -/
theorem parseGBool_boolToString (b : Bool) : parseGBool? (boolToString b) = some b := by
  cases b <;> decide

/-! ### Structure of the key file written by `save_config` -/

/-- `setValue` on an absent group/key pair appends a fresh entry. -/
theorem setValue_append (kf : KeyFile) (g k v : String)
    (h : kf.any (keyMatches g k) = false) :
    setValue kf g k v = kf ++ [{ group := g, key := k, value := v }] := by
  simp [setValue, h]

/-- The eleven scalar `set` calls of `save_config` produce exactly the
scalar entry list, in source order. -/
theorem save_key_file_eq (config : FsearchConfig) :
    save_key_file config =
      save_locations (scalarEntries config) config.locations 1 := by
  unfold save_key_file
  simp [setValue_append, keyMatches, scalarEntries]

/-- A location key never matches a scalar entry. -/
theorem scalarEntries_any_db (config : FsearchConfig) (k : String) :
    (scalarEntries config).any (keyMatches "Database" k) = false := by
  simp [scalarEntries, keyMatches]

/-- The location loop of `save_config` appends exactly the contiguously
numbered entries of the spec, provided none of the location keys from
`pos` on is already present. -/
theorem save_locations_eq :
    ∀ (locs : List String) (kf : KeyFile) (pos : Nat),
      (∀ i, pos ≤ i → kf.any (keyMatches "Database" (locKey i)) = false) →
        save_locations kf locs pos = kf ++ specLocationEntries pos locs := by
  intro locs
  induction locs with
  | nil => intro kf pos _; simp [save_locations, specLocationEntries]
  | cons v rest ih =>
    intro kf pos H
    show save_locations (setValue kf "Database" (locKey pos) v) rest (pos + 1) = _
    rw [setValue_append kf _ _ v (H pos le_rfl)]
    rw [ih _ (pos + 1) ?_]
    · simp [specLocationEntries, List.append_assoc]
    · intro i hi
      rw [List.any_append]
      have h1 := H i (by omega)
      have h2 : (locKey pos == locKey i) = false := by
        refine beq_eq_false_iff_ne.mpr fun hEq => ?_
        have := locKey_inj hEq
        omega
      simp [h1, keyMatches, h2]

/-- The spec's location entries all belong to the `Database` group. -/
theorem specLocationEntries_filter_db :
    ∀ (locs : List String) (pos : Nat),
      (specLocationEntries pos locs).filter (fun e => e.group == "Database") =
        specLocationEntries pos locs := by
  intro locs
  induction locs with
  | nil => intro pos; simp [specLocationEntries]
  | cons v rest ih => intro pos; simp [specLocationEntries, ih (pos + 1)]

/-- No scalar entry belongs to the `Database` group. -/
theorem scalarEntries_filter_db (config : FsearchConfig) :
    (scalarEntries config).filter (fun e => e.group == "Database") = [] := by
  simp [scalarEntries]

/-- C7: for every record, `save_config` writes the record's locations to
the `Database` group as the keys `location_1 .. location_N` in the
record's current sequence order, numbered contiguously from 1 with no
gaps: the `Database` entries of the written key file are exactly the
spec's contiguously numbered entry sequence. -/
theorem save_locations_contiguous (config : FsearchConfig) :
    (save_key_file config).filter (fun e => e.group == "Database") =
      specLocationEntries 1 config.locations := by
  rw [save_key_file_eq,
    save_locations_eq config.locations (scalarEntries config) 1
      (fun i _ => scalarEntries_any_db config (locKey i)),
    List.filter_append, scalarEntries_filter_db,
    specLocationEntries_filter_db config.locations 1]
  rfl

/-! ### Reading back a saved key file -/

/-- Lookup distributes over key-file concatenation, first part first. -/
theorem lookupVal_append (a b : KeyFile) (g k : String) :
    lookupVal (a ++ b) g k = (lookupVal a g k).or (lookupVal b g k) := by
  unfold lookupVal
  rw [List.find?_append]
  cases a.find? (keyMatches g k) <;> simp

/-- Looking up `location_(pos+q)` among the entries numbered from `pos`
returns the `q`-th location, if any. -/
theorem lookupVal_specLoc :
    ∀ (locs : List String) (pos q : Nat),
      lookupVal (specLocationEntries pos locs) "Database" (locKey (pos + q)) =
        locs[q]? := by
  intro locs
  induction locs with
  | nil => intro pos q; simp [specLocationEntries, lookupVal]
  | cons v rest ih =>
    intro pos q
    cases q with
    | zero =>
      simp [specLocationEntries, lookupVal, keyMatches]
    | succ q =>
      have hb : (locKey pos == locKey (pos + (q + 1))) = false :=
        beq_eq_false_iff_ne.mpr fun hEq => by
          have := locKey_inj hEq
          omega
      show lookupVal ({ group := "Database", key := locKey pos, value := v } ::
        specLocationEntries (pos + 1) rest) "Database" (locKey (pos + (q + 1))) = _
      unfold lookupVal
      rw [List.find?_cons_of_neg _ (by simp [keyMatches, hb])]
      have h2 := ih (pos + 1) q
      rw [show pos + (q + 1) = pos + 1 + q from by omega]
      simpa [lookupVal] using h2

/-- No scalar entry answers a `Database` lookup. -/
theorem lookupVal_scalars_db (config : FsearchConfig) (k : String) :
    lookupVal (scalarEntries config) "Database" k = none := by
  simp [lookupVal, scalarEntries, keyMatches]

/-- With a `none` default, `config_load_string` is exactly the raw lookup. -/
theorem config_load_string_eq_lookup (kf : KeyFile) (g k : String) :
    config_load_string kf g k none = lookupVal kf g k := by
  unfold config_load_string keyFileGetString keyFileGetValue
  cases h : lookupVal kf g k
  · cases hg : hasGroup kf g <;> simp
  · simp

/-- The location-reading loop returns exactly `L` whenever lookups of the
keys numbered from `pos` enumerate `L` and the fuel exceeds its length. -/
theorem loadLocationsFrom_eq :
    ∀ (L : List String) (kf : KeyFile) (pos fuel : Nat),
      (∀ q, lookupVal kf "Database" (locKey (pos + q)) = L[q]?) →
        L.length + 1 ≤ fuel → loadLocationsFrom kf pos fuel = L := by
  intro L
  induction L with
  | nil =>
    intro kf pos fuel H hf
    obtain ⟨fuel, rfl⟩ : ∃ f, fuel = f + 1 := ⟨fuel - 1, by omega⟩
    have h0 : config_load_string kf "Database" (locKey pos) none = none := by
      rw [config_load_string_eq_lookup]
      have := H 0
      simpa using this
    simp [loadLocationsFrom, h0]
  | cons v rest ih =>
    intro kf pos fuel H hf
    obtain ⟨fuel, rfl⟩ : ∃ f, fuel = f + 1 := ⟨fuel - 1, by omega⟩
    have h0 : config_load_string kf "Database" (locKey pos) none = some v := by
      rw [config_load_string_eq_lookup]
      have := H 0
      simpa using this
    have hrec := ih kf (pos + 1) fuel ?_ (by simpa using hf)
    · simp [loadLocationsFrom, h0, hrec]
    · intro q
      have := H (q + 1)
      rw [show pos + (q + 1) = pos + 1 + q from by omega] at this
      simpa using this

/-- The spec's entry sequence has one entry per location. -/
theorem specLocationEntries_length :
    ∀ (locs : List String) (pos : Nat),
      (specLocationEntries pos locs).length = locs.length := by
  intro locs
  induction locs with
  | nil => intro pos; rfl
  | cons v rest ih => intro pos; simp [specLocationEntries, ih (pos + 1)]

/-- Reading the location sequence back from a saved key file recovers the
record's location list. -/
theorem loadLocations_save (config : FsearchConfig) :
    loadLocations (save_key_file config) = config.locations := by
  have hkf : save_key_file config =
      scalarEntries config ++ specLocationEntries 1 config.locations := by
    rw [save_key_file_eq]
    exact save_locations_eq config.locations (scalarEntries config) 1
      (fun i _ => scalarEntries_any_db config (locKey i))
  unfold loadLocations
  refine loadLocationsFrom_eq config.locations _ 1 _ (fun q => ?_) ?_
  · rw [hkf, lookupVal_append, lookupVal_scalars_db, lookupVal_specLoc]
    rfl
  · rw [hkf]
    simp [specLocationEntries_length]

/-- The saved key file is the scalar entries followed by the location
entries. -/
theorem save_key_file_append (config : FsearchConfig) :
    save_key_file config =
      scalarEntries config ++ specLocationEntries 1 config.locations := by
  rw [save_key_file_eq]
  exact save_locations_eq config.locations (scalarEntries config) 1
    (fun i _ => scalarEntries_any_db config (locKey i))

/-- A boolean field whose serialized text sits in the scalar entries is
read back unchanged, whatever the per-field default. -/
theorem load_boolean_saved (config : FsearchConfig) (g k : String) (d b : Bool)
    (h : lookupVal (scalarEntries config) g k = some (boolToString b)) :
    config_load_boolean (save_key_file config) g k d = b := by
  unfold config_load_boolean keyFileGetBoolean keyFileGetValue
  rw [save_key_file_append, lookupVal_append, h]
  simp [parseGBool_boolToString]

/-- The saved `num_results` is read back unchanged for any `uint32_t`
value, through the signed `gint` detour. -/
theorem load_integer_saved (config : FsearchConfig)
    (h : config.num_results < 4294967296) :
    config_load_integer (save_key_file config) "Search" "num_results" 10000 =
      config.num_results := by
  have hlook : lookupVal (scalarEntries config) "Search" "num_results" =
      some (gintToString (toGInt config.num_results)) := by
    simp [lookupVal, scalarEntries, keyMatches]
  unfold config_load_integer keyFileGetInteger keyFileGetValue
  rw [save_key_file_append, lookupVal_append, hlook]
  have hr := toGInt_range config.num_results
  simp [parseGInt_gintToString _ hr.1 hr.2]
  exact uint32OfGInt_toGInt _ h

/-- C1: saving a record whose location sequence is non-empty and made of
unique paths (and whose `num_results` fits in a `uint32_t`), then loading
the saved file into a fresh record, recovers the original record in every
scalar field and with the same location sequence in the same order. -/
theorem save_load_roundtrip (R c0 : FsearchConfig)
    (hnum : R.num_results < 4294967296)
    (hne : R.locations ≠ []) (hnd : R.locations.Nodup)
    (hc0 : c0.locations = []) :
    load_config (some (save_key_file R)) c0 = (true, R) := by
  rw [load_config_some_eq, hc0]
  have e1 : config_load_boolean (save_key_file R) "Interface"
      "enable_list_tooltips" true = R.enable_list_tooltips :=
    load_boolean_saved R _ _ _ _ (by simp [lookupVal, scalarEntries, keyMatches])
  have e2 : config_load_boolean (save_key_file R) "Interface"
      "enable_dark_theme" false = R.enable_dark_theme :=
    load_boolean_saved R _ _ _ _ (by simp [lookupVal, scalarEntries, keyMatches])
  have e3 : config_load_boolean (save_key_file R) "Interface"
      "show_menubar" true = R.show_menubar :=
    load_boolean_saved R _ _ _ _ (by simp [lookupVal, scalarEntries, keyMatches])
  have e4 : config_load_boolean (save_key_file R) "Interface"
      "show_statusbar" true = R.show_statusbar :=
    load_boolean_saved R _ _ _ _ (by simp [lookupVal, scalarEntries, keyMatches])
  have e5 : config_load_boolean (save_key_file R) "Interface"
      "show_filter" true = R.show_filter :=
    load_boolean_saved R _ _ _ _ (by simp [lookupVal, scalarEntries, keyMatches])
  have e6 : config_load_boolean (save_key_file R) "Interface"
      "show_search_button" true = R.show_search_button :=
    load_boolean_saved R _ _ _ _ (by simp [lookupVal, scalarEntries, keyMatches])
  have e7 : config_load_boolean (save_key_file R) "Search"
      "match_case" false = R.match_case :=
    load_boolean_saved R _ _ _ _ (by simp [lookupVal, scalarEntries, keyMatches])
  have e8 : config_load_boolean (save_key_file R) "Search"
      "enable_regex" false = R.enable_regex :=
    load_boolean_saved R _ _ _ _ (by simp [lookupVal, scalarEntries, keyMatches])
  have e9 : config_load_boolean (save_key_file R) "Search"
      "search_in_path" false = R.search_in_path :=
    load_boolean_saved R _ _ _ _ (by simp [lookupVal, scalarEntries, keyMatches])
  have e10 : config_load_boolean (save_key_file R) "Search"
      "limit_results" false = R.limit_results :=
    load_boolean_saved R _ _ _ _ (by simp [lookupVal, scalarEntries, keyMatches])
  have e11 := load_integer_saved R hnum
  have e12 := loadLocations_save R
  rw [e1, e2, e3, e4, e5, e6, e7, e8, e9, e10, e11, e12]
  rfl

/-- C1 witness: the round trip at a concrete record with two distinct
locations. -/
theorem save_load_roundtrip_witness :
    load_config
        (some (save_key_file
          { enable_list_tooltips := false, enable_dark_theme := true,
            show_menubar := false, show_statusbar := true, show_filter := false,
            show_search_button := true, match_case := true, enable_regex := false,
            search_in_path := true, limit_results := true,
            num_results := 3000000000, locations := ["/a", "/b"] })) cEx =
      (true,
        { enable_list_tooltips := false, enable_dark_theme := true,
          show_menubar := false, show_statusbar := true, show_filter := false,
          show_search_button := true, match_case := true, enable_regex := false,
          search_in_path := true, limit_results := true,
          num_results := 3000000000, locations := ["/a", "/b"] }) :=
  save_load_roundtrip _ cEx (by decide) (by decide) (by decide) rfl
